import Mathlib

/-!
Verification of the country-refresh service (`server.js`).

The repository ships two near-duplicate Express server implementations in one
file (separated by a document marker); we embed the derivation and refresh
logic of both, as `Impl1` (first implementation, lines 1-293) and `Impl2`
(second implementation, lines 294-506), over a shallow model of JS values:
JS strings are Lean strings, JS numbers are rationals, JS `null`/absence is
`Option.none`, and `Math.random()` is an explicit sample `u` with
`0 ≤ u < 1`.
-/

namespace CountryService

/-- JS `String.prototype.toLowerCase` (ASCII case mapping), per character. -/
def jsToLower (s : String) : String := ⟨s.data.map Char.toLower⟩

/-- JS `String.prototype.toUpperCase` (ASCII case mapping), per character. -/
def jsToUpper (s : String) : String := ⟨s.data.map Char.toUpper⟩

/-- JS `String.prototype.trim`: drop whitespace from both ends. -/
def jsTrim (s : String) : String :=
  ⟨((s.data.dropWhile Char.isWhitespace).reverse.dropWhile Char.isWhitespace).reverse⟩

/-- JS `x || null` for an optional string: `null` and the empty string are falsy. -/
def jsOrNull (s : Option String) : Option String :=
  match s with
  | some t => if t = "" then none else some t
  | none => none

/-- `normalizeName` (server.js lines 28-30 and 315-317, identical):
`(name || "").trim().toLowerCase()`. -/
def normalizeName (name : Option String) : String :=
  jsToLower (jsTrim (name.getD ""))

/-- `randomMultiplier` (server.js lines 32-34 and 318-320, identical):
`Math.floor(Math.random() * 1001) + 1000`, with the `Math.random()` sample
`u` made explicit. -/
def randomMultiplier (u : ℚ) : ℤ :=
  ⌊u * 1001⌋ + 1000

/-- One element of the `currencies` array: its `code` field may be absent
(`none`); the empty string is falsy in the guard that reads it. -/
structure CurrencyEntry where
  code : Option String
deriving Repr, DecidableEq

/-- One element of the external countries catalog, restricted to the fields the
refresh handlers read.  `none` models an absent or null field; `currencies`
may be absent (not an array), and its elements may themselves be null. -/
structure CatalogEntry where
  name : Option String
  capital : Option String
  region : Option String
  population : Option ℚ
  flag : Option String
  currencies : Option (List (Option CurrencyEntry))
deriving Repr, DecidableEq

/-- The normalized rate mapping for one cycle: currency code to rate, where a
present key may still hold a null value. -/
abbrev RateTable := List (String × Option ℚ)

/-- `Object.prototype.hasOwnProperty.call(rates, code)` followed by
`rates[code]`: `some v` when the key is present with value `v` (itself
possibly null), `none` when the key is absent. -/
def lookupRate (rates : RateTable) (code : String) : Option (Option ℚ) :=
  (rates.find? (fun p => decide (p.1 = code))).map Prod.snd

/-- Extraction of the first currency code, identical in both implementations:
`Array.isArray(c.currencies) && c.currencies.length > 0 && c.currencies[0] &&
c.currencies[0].code` guards `String(code).trim().toUpperCase()`; any falsy
step yields no code.  Note the result may be the empty string when the raw
code is whitespace only. -/
def firstCurrencyCode (c : CatalogEntry) : Option String :=
  match c.currencies with
  | some (some e :: _) =>
      match e.code with
      | some s => if s = "" then none else some (jsToUpper (jsTrim s))
      | none => none
  | _ => none

/-- A row of the `countries` table as written by the refresh upsert
(server.js lines 128-142 and 406-420). -/
structure DerivedRecord where
  name : String
  normalized_name : String
  capital : Option String
  region : Option String
  population : ℚ
  currency_code : Option String
  exchange_rate : Option ℚ
  estimated_gdp : Option ℚ
  flag_url : Option String
  last_refreshed_at : String
deriving Repr, DecidableEq

namespace Impl1

/-- `computeEstimatedGDP` of the first implementation (server.js lines 36-40):
`if (!population || !exchangeRate || Number(exchangeRate) === 0) return null;`
so a zero or null population, and a zero or null rate, all yield null;
otherwise `population * randomMultiplier() / exchangeRate`. -/
def computeEstimatedGDP (population exchangeRate : Option ℚ) (u : ℚ) : Option ℚ :=
  match population, exchangeRate with
  | some p, some r =>
      if p = 0 ∨ r = 0 then none
      else some (p * (randomMultiplier u : ℚ) / r)
  | _, _ => none

/-- The loop body of the first implementation after the skip check (server.js
lines 107-142), given the non-falsy name and non-null population.  The
no-currency sentinel is the string `"N/A"`; `estimated_gdp` starts at `0` and
is only reassigned when the code differs from the sentinel and is a key of
the rate mapping. -/
def deriveFields (rates : RateTable) (u : ℚ) (now : String) (c : CatalogEntry)
    (nm : String) (pop : ℚ) : DerivedRecord :=
  let currency_code := (firstCurrencyCode c).getD "N/A"
  match (if currency_code ≠ "N/A" then lookupRate rates currency_code else none) with
  | some rv =>
      { name := nm, normalized_name := normalizeName (some nm),
        capital := jsOrNull c.capital, region := jsOrNull c.region,
        population := pop, currency_code := some currency_code,
        exchange_rate := rv,
        estimated_gdp := computeEstimatedGDP (some pop) rv u,
        flag_url := jsOrNull c.flag, last_refreshed_at := now }
  | none =>
      { name := nm, normalized_name := normalizeName (some nm),
        capital := jsOrNull c.capital, region := jsOrNull c.region,
        population := pop, currency_code := some currency_code,
        exchange_rate := none,
        estimated_gdp := some 0,
        flag_url := jsOrNull c.flag, last_refreshed_at := now }

/-- Body of the derivation loop of the first implementation (server.js lines
102-147), without the SQL execution: `none` when the entry is skipped
(falsy `name` or null `population`). -/
def deriveRecord (rates : RateTable) (u : ℚ) (now : String) (c : CatalogEntry) :
    Option DerivedRecord :=
  match jsOrNull c.name, c.population with
  | some nm, some pop => some (deriveFields rates u now c nm pop)
  | _, _ => none

end Impl1

namespace Impl2

/-- `computeEstimatedGDP` of the second implementation (server.js lines
321-327): null population yields null, null or zero rate yields null,
otherwise `population * randomMultiplier() / exchangeRate`; a zero
population with a nonzero rate yields `0`. -/
def computeEstimatedGDP (population exchangeRate : Option ℚ) (u : ℚ) : Option ℚ :=
  match population with
  | none => none
  | some p =>
      match exchangeRate with
      | none => none
      | some r => if r = 0 then none else some (p * (randomMultiplier u : ℚ) / r)

/-- The loop body of the second implementation after the skip check (server.js
lines 386-420), given the non-falsy name and non-null population.  The
no-currency case (`if (!currency_code)`: null or empty string) keeps
`currency_code` as it is and sets `estimated_gdp` to `0`; a code absent from
the rate mapping leaves both `exchange_rate` and `estimated_gdp` null. -/
def deriveFields (rates : RateTable) (u : ℚ) (now : String) (c : CatalogEntry)
    (nm : String) (pop : ℚ) : DerivedRecord :=
  let currency_code := firstCurrencyCode c
  if currency_code = none ∨ currency_code = some "" then
    { name := nm, normalized_name := normalizeName (some nm),
      capital := jsOrNull c.capital, region := jsOrNull c.region,
      population := pop, currency_code := currency_code,
      exchange_rate := none,
      estimated_gdp := some 0,
      flag_url := jsOrNull c.flag, last_refreshed_at := now }
  else
    match lookupRate rates (currency_code.getD "") with
    | some rv =>
        { name := nm, normalized_name := normalizeName (some nm),
          capital := jsOrNull c.capital, region := jsOrNull c.region,
          population := pop, currency_code := currency_code,
          exchange_rate := rv,
          estimated_gdp := computeEstimatedGDP (some pop) rv u,
          flag_url := jsOrNull c.flag, last_refreshed_at := now }
    | none =>
        { name := nm, normalized_name := normalizeName (some nm),
          capital := jsOrNull c.capital, region := jsOrNull c.region,
          population := pop, currency_code := currency_code,
          exchange_rate := none,
          estimated_gdp := none,
          flag_url := jsOrNull c.flag, last_refreshed_at := now }

/-- Body of the derivation loop of the second implementation (server.js lines
377-422), without the SQL execution: `none` when the entry is skipped. -/
def deriveRecord (rates : RateTable) (u : ℚ) (now : String) (c : CatalogEntry) :
    Option DerivedRecord :=
  match jsOrNull c.name, c.population with
  | some nm, some pop => some (deriveFields rates u now c nm pop)
  | _, _ => none

end Impl2

/-- The logical source of an external fetch, as tagged by the two
`.catch(() => { throw { api: ... } })` wrappers around the fetches. -/
inductive ApiSource
  | countries
  | exchangeRates
deriving Repr, DecidableEq

/-- The string each wrapper puts in the thrown `{ api }` object. -/
def ApiSource.label : ApiSource → String
  | .countries => "Countries API"
  | .exchangeRates => "Exchange Rates API"

/-- Outcome of the fetch stage (`Promise.all` over the two tagged fetches,
then the `Array.isArray` check): either one fetch rejected (timeout or
non-2xx, already tagged with its source), or both resolved but the countries
body is not an array, or both resolved with an array of catalog entries and
the raw `rates` and `conversion_rates` fields of the rates body (`none` for
an absent or falsy field). -/
inductive FetchOutcome
  | fail (source : ApiSource)
  | notArray
  | ok (entries : List CatalogEntry) (ratesField conversionRatesField : Option RateTable)

/-- `ratesData && (ratesData.rates || ratesData.conversion_rates) ? (...) : {}`
(server.js lines 97 and 372): prefer the `rates` field, then
`conversion_rates`, defaulting to the empty mapping. -/
def normalizeRates (ratesField conversionRatesField : Option RateTable) : RateTable :=
  match ratesField with
  | some r => r
  | none =>
      match conversionRatesField with
      | some r => r
      | none => []

/-- The visible state of the relational store: the `countries` table and the
`last_refreshed_at` row of the `meta` table. -/
structure DBState where
  countries : List DerivedRecord
  meta : Option String
deriving Repr, DecidableEq

/-- Modelled from the spec: the SQL schema (`db.js` and the table definitions
are not under src).  Spec §3 keys a `CountryRecord` by its normalized name and
makes `normalizedName` unique, so the
`INSERT ... ON DUPLICATE KEY UPDATE` statement (server.js lines 128-142 and
406-420), which overwrites every mutable field, is modelled as replacing the
row carrying the same `normalized_name`, and appending a fresh row otherwise. -/
def upsert (rows : List DerivedRecord) (r : DerivedRecord) : List DerivedRecord :=
  if rows.any (fun x => decide (x.normalized_name = r.normalized_name)) then
    rows.map (fun x => if x.normalized_name = r.normalized_name then r else x)
  else rows ++ [r]

/-- Modelled from the spec: the relational store is an external collaborator
(spec §6) exposing begin/execute/commit/rollback; statements executed inside a
transaction become visible only at commit, and rollback discards all of them.
A refresh transaction executes one upsert per derived record (the oracle
`upsertFails` says whether the statement at a given position throws) and then
the metadata write (`metaFails`); any failure aborts the whole transaction. -/
def runTransaction (st : DBState) (records : List DerivedRecord)
    (upsertFails : ℕ → Bool) (metaFails : Bool) (now : String) : Option DBState :=
  if (List.range records.length).any upsertFails then none
  else if metaFails then none
  else some { countries := records.foldl upsert st.countries, meta := some now }

/-- The externally visible result of `POST /countries/refresh`. -/
inductive RefreshResult
  | conflict
  | externalUnavailable (details : String)
  | internalError
  | success (total : ℕ) (lastRef : String)
deriving Repr, DecidableEq

namespace Impl1

/-- Derivation of the whole catalog by the first implementation, one random
sample per catalog position. -/
def deriveAll (rates : RateTable) (draws : ℕ → ℚ) (now : String)
    (entries : List CatalogEntry) : List DerivedRecord :=
  entries.enum.filterMap (fun p => deriveRecord rates (draws p.1) now p.2)

/-- `POST /countries/refresh` of the first implementation (server.js lines
84-180): the guard check, the tagged fetch stage, the derivation loop, the
transaction over upserts plus metadata, and response shaping.  Returns the
response, the visible store state afterwards, and the `refreshInProgress`
flag afterwards. -/
def refresh (guard : Bool) (st : DBState) (fetch : FetchOutcome) (draws : ℕ → ℚ)
    (upsertFails : ℕ → Bool) (metaFails : Bool) (now : String) :
    RefreshResult × DBState × Bool :=
  if guard then (.conflict, st, true)
  else
    match fetch with
    | .fail src =>
        (.externalUnavailable ("Could not fetch data from " ++ src.label), st, false)
    | .notArray =>
        (.externalUnavailable ("Could not fetch data from " ++ ApiSource.countries.label),
          st, false)
    | .ok entries ratesField conversionRatesField =>
        let rates := normalizeRates ratesField conversionRatesField
        let records := deriveAll rates draws now entries
        match runTransaction st records upsertFails metaFails now with
        | none => (.internalError, st, false)
        | some st2 => (.success st2.countries.length now, st2, false)

end Impl1

namespace Impl2

/-- Derivation of the whole catalog by the second implementation, one random
sample per catalog position. -/
def deriveAll (rates : RateTable) (draws : ℕ → ℚ) (now : String)
    (entries : List CatalogEntry) : List DerivedRecord :=
  entries.enum.filterMap (fun p => deriveRecord rates (draws p.1) now p.2)

/-- `POST /countries/refresh` of the second implementation (server.js lines
363-446): same orchestration as the first implementation, with the second
derivation loop. -/
def refresh (guard : Bool) (st : DBState) (fetch : FetchOutcome) (draws : ℕ → ℚ)
    (upsertFails : ℕ → Bool) (metaFails : Bool) (now : String) :
    RefreshResult × DBState × Bool :=
  if guard then (.conflict, st, true)
  else
    match fetch with
    | .fail src =>
        (.externalUnavailable ("Could not fetch data from " ++ src.label), st, false)
    | .notArray =>
        (.externalUnavailable ("Could not fetch data from " ++ ApiSource.countries.label),
          st, false)
    | .ok entries ratesField conversionRatesField =>
        let rates := normalizeRates ratesField conversionRatesField
        let records := deriveAll rates draws now entries
        match runTransaction st records upsertFails metaFails now with
        | none => (.internalError, st, false)
        | some st2 => (.success st2.countries.length now, st2, false)

end Impl2

/-- `GET /countries/:name` (identical in both implementations): select by
`normalized_name = normalizeName(req.params.name)`; `none` is the 404 case. -/
def getCountry (st : DBState) (nameParam : String) : Option DerivedRecord :=
  st.countries.find? (fun r => decide (r.normalized_name = normalizeName (some nameParam)))

/-- `DELETE /countries/:name` (identical in both implementations): delete by
`normalized_name = normalizeName(req.params.name)`; the boolean is
`affectedRows > 0` (false is the 404 case). -/
def deleteCountry (st : DBState) (nameParam : String) : DBState × Bool :=
  let remaining :=
    st.countries.filter
      (fun r => decide (¬ r.normalized_name = normalizeName (some nameParam)))
  ({ st with countries := remaining }, decide (remaining.length ≠ st.countries.length))

/-! Helper lemmas shared by several claim theorems. -/

theorem jsOrNull_eq_none_iff (s : Option String) :
    jsOrNull s = none ↔ s = none ∨ s = some "" := by
  cases s with
  | none => simp [jsOrNull]
  | some t =>
      by_cases h : t = "" <;> simp [jsOrNull, h]

theorem jsOrNull_eq_some_iff (s : Option String) (t : String) :
    jsOrNull s = some t ↔ s = some t ∧ t ≠ "" := by
  cases s with
  | none => simp [jsOrNull]
  | some v =>
      by_cases h : v = "" <;> simp [jsOrNull, h] <;> aesop

theorem deriveRecord1_eq_none_iff (rates : RateTable) (u : ℚ) (now : String)
    (c : CatalogEntry) :
    Impl1.deriveRecord rates u now c = none ↔
      jsOrNull c.name = none ∨ c.population = none := by
  cases hn : jsOrNull c.name <;> cases hp : c.population <;>
    simp [Impl1.deriveRecord, hn, hp]

theorem deriveRecord2_eq_none_iff (rates : RateTable) (u : ℚ) (now : String)
    (c : CatalogEntry) :
    Impl2.deriveRecord rates u now c = none ↔
      jsOrNull c.name = none ∨ c.population = none := by
  cases hn : jsOrNull c.name <;> cases hp : c.population <;>
    simp [Impl2.deriveRecord, hn, hp]

theorem deriveRecord1_eq_some (rates : RateTable) (u : ℚ) (now : String)
    (c : CatalogEntry) (nm : String) (pop : ℚ)
    (hn : jsOrNull c.name = some nm) (hp : c.population = some pop) :
    Impl1.deriveRecord rates u now c = some (Impl1.deriveFields rates u now c nm pop) := by
  simp [Impl1.deriveRecord, hn, hp]

theorem deriveRecord2_eq_some (rates : RateTable) (u : ℚ) (now : String)
    (c : CatalogEntry) (nm : String) (pop : ℚ)
    (hn : jsOrNull c.name = some nm) (hp : c.population = some pop) :
    Impl2.deriveRecord rates u now c = some (Impl2.deriveFields rates u now c nm pop) := by
  simp [Impl2.deriveRecord, hn, hp]

/-- C10: an entry is processed (upserted) by the refresh derivation of either
implementation iff its `name` is a non-empty string and its `population` is
present; in particular an empty-string name is skipped exactly like a missing
one (both make `c.name || null` null), and population `0` qualifies (the
check is `population == null`, not truthiness). -/
theorem upsert_skip_iff (rates : RateTable) (u : ℚ) (now : String) (c : CatalogEntry) :
    (Impl1.deriveRecord rates u now c ≠ none ↔
      (∃ nm, c.name = some nm ∧ nm ≠ "") ∧ c.population ≠ none) ∧
    (Impl2.deriveRecord rates u now c ≠ none ↔
      (∃ nm, c.name = some nm ∧ nm ≠ "") ∧ c.population ≠ none) := by
  have hname : jsOrNull c.name ≠ none ↔ (∃ nm, c.name = some nm ∧ nm ≠ "") := by
    rw [Ne, jsOrNull_eq_none_iff]
    cases c.name with
    | none => simp
    | some t => by_cases h : t = "" <;> simp [h]
  constructor
  · rw [Ne, deriveRecord1_eq_none_iff, ← hname]
    tauto
  · rw [Ne, deriveRecord2_eq_none_iff, ← hname]
    tauto

/-- C4: for a qualifying entry with no currency code (no currency array, empty
array, null first element, or falsy `code` field), both implementations derive
`estimated_gdp = 0` (not null): the first keeps the initial `0` behind the
`"N/A"` sentinel, the second takes the `!currency_code` branch. -/
theorem noCurrency_gdp_zero (rates : RateTable) (u : ℚ) (now : String)
    (c : CatalogEntry) (nm : String) (pop : ℚ)
    (hn : jsOrNull c.name = some nm) (hp : c.population = some pop)
    (hcc : firstCurrencyCode c = none) :
    (Impl1.deriveRecord rates u now c).map DerivedRecord.estimated_gdp = some (some 0) ∧
    (Impl2.deriveRecord rates u now c).map DerivedRecord.estimated_gdp = some (some 0) := by
  rw [deriveRecord1_eq_some rates u now c nm pop hn hp,
    deriveRecord2_eq_some rates u now c nm pop hn hp]
  constructor
  · simp [Impl1.deriveFields, hcc]
  · simp [Impl2.deriveFields, hcc]

/-- Witness for C4 at a concrete entry with an empty currency array and
population `7`. -/
theorem noCurrency_gdp_zero_witness :
    (Impl1.deriveRecord [("USD", some 2)] 0 "t"
        ⟨some "Atlantis", none, none, some 7, none, some []⟩).map
      DerivedRecord.estimated_gdp = some (some 0) ∧
    (Impl2.deriveRecord [("USD", some 2)] 0 "t"
        ⟨some "Atlantis", none, none, some 7, none, some []⟩).map
      DerivedRecord.estimated_gdp = some (some 0) :=
  noCurrency_gdp_zero [("USD", some 2)] 0 "t"
    ⟨some "Atlantis", none, none, some 7, none, some []⟩ "Atlantis" 7
    (by decide) (by decide) (by decide)

/-- C2 counterexample: an entry whose first currency code is present (`"EUR"`)
but absent from the rate mapping yields `estimated_gdp = 0`, not null, under
the FIRST implementation (its `estimated_gdp` starts at `0` and the unmapped
branch never reassigns it), contradicting the claim that such entries derive a
null `estimated_gdp`. -/
theorem unmappedCode_impl1_gdp_zero_cx :
    (Impl1.deriveRecord [] 0 "t"
        ⟨some "X", none, none, some 5, none, some [some ⟨some "EUR"⟩]⟩).map
      DerivedRecord.estimated_gdp = some (some 0) ∧
    (some (some (0 : ℚ)) : Option (Option ℚ)) ≠ some none := by
  constructor
  · decide
  · decide

/-- C2 amended: for a qualifying entry whose first currency code is present
(non-empty after trim and uppercase) but absent from the rate mapping, both
implementations derive a null `exchange_rate` and store the code itself, but
`estimated_gdp` is null only in the second implementation; the first derives
`estimated_gdp = 0`. -/
theorem unmappedCode_exchange_null_gdp (rates : RateTable) (u : ℚ) (now : String)
    (c : CatalogEntry) (nm : String) (pop : ℚ) (code : String)
    (hn : jsOrNull c.name = some nm) (hp : c.population = some pop)
    (hcc : firstCurrencyCode c = some code) (hne : code ≠ "")
    (hmiss : lookupRate rates code = none) :
    (Impl1.deriveRecord rates u now c).map
        (fun r => (r.currency_code, r.exchange_rate, r.estimated_gdp)) =
      some (some code, none, some 0) ∧
    (Impl2.deriveRecord rates u now c).map
        (fun r => (r.currency_code, r.exchange_rate, r.estimated_gdp)) =
      some (some code, none, none) := by
  rw [deriveRecord1_eq_some rates u now c nm pop hn hp,
    deriveRecord2_eq_some rates u now c nm pop hn hp]
  constructor
  · by_cases hna : code = "N/A"
    · subst hna
      simp [Impl1.deriveFields, hcc]
    · simp [Impl1.deriveFields, hcc, hna, hmiss]
  · simp [Impl2.deriveFields, hcc, hne, hmiss]

/-- Witness for C2 (amended) at a concrete entry with unmapped code `"EUR"`. -/
theorem unmappedCode_exchange_null_gdp_witness :
    (Impl1.deriveRecord [("USD", some 2)] 0 "t"
        ⟨some "X", none, none, some 5, none, some [some ⟨some "eur"⟩]⟩).map
      (fun r => (r.currency_code, r.exchange_rate, r.estimated_gdp)) =
      some (some "EUR", none, some 0) ∧
    (Impl2.deriveRecord [("USD", some 2)] 0 "t"
        ⟨some "X", none, none, some 5, none, some [some ⟨some "eur"⟩]⟩).map
      (fun r => (r.currency_code, r.exchange_rate, r.estimated_gdp)) =
      some (some "EUR", none, none) :=
  unmappedCode_exchange_null_gdp [("USD", some 2)] 0 "t"
    ⟨some "X", none, none, some 5, none, some [some ⟨some "eur"⟩]⟩ "X" 5 "EUR"
    (by decide) (by decide) (by decide) (by decide) (by decide)

/-- Witness for C10: an entry with population `0` and a proper name is
processed, not skipped. -/
theorem upsert_skip_iff_witness :
    Impl1.deriveRecord [] 0 "t" ⟨some "Z", none, none, some 0, none, none⟩ ≠ none :=
  (upsert_skip_iff [] 0 "t" ⟨some "Z", none, none, some 0, none, none⟩).1.mpr
    ⟨⟨"Z", rfl, by decide⟩, by decide⟩

theorem runTransaction_eq_none_iff (st : DBState) (records : List DerivedRecord)
    (uf : ℕ → Bool) (mf : Bool) (now : String) :
    runTransaction st records uf mf now = none ↔
      (∃ i < records.length, uf i = true) ∨ mf = true := by
  have hany : (List.range records.length).any uf = true ↔
      ∃ i < records.length, uf i = true := by
    simp [List.any_eq_true, List.mem_range]
  unfold runTransaction
  by_cases h1 : (List.range records.length).any uf
  · simp only [h1, if_true]
    simp [hany.mp h1]
  · by_cases h2 : mf
    · simp_all
    · simp_all

/-- C5: if one of the two external fetches fails (timeout or non-2xx, both
tagged by the per-fetch catch wrapper before the `AbortError` branch can ever
see them) or the countries body is not an array, both implementations answer
503 with details naming the failing logical source, leave the store untouched,
and clear the guard. -/
theorem externalFailure_503_no_write (st : DBState) (draws : ℕ → ℚ)
    (uf : ℕ → Bool) (mf : Bool) (now : String) :
    (∀ src : ApiSource,
      Impl1.refresh false st (.fail src) draws uf mf now =
        (.externalUnavailable ("Could not fetch data from " ++ src.label), st, false) ∧
      Impl2.refresh false st (.fail src) draws uf mf now =
        (.externalUnavailable ("Could not fetch data from " ++ src.label), st, false)) ∧
    (Impl1.refresh false st .notArray draws uf mf now =
      (.externalUnavailable "Could not fetch data from Countries API", st, false) ∧
    Impl2.refresh false st .notArray draws uf mf now =
      (.externalUnavailable "Could not fetch data from Countries API", st, false)) :=
  ⟨fun _ => ⟨rfl, rfl⟩, rfl, rfl⟩

/-- Witness for C5: a timed-out exchange-rate fetch answers 503 naming the
Exchange Rates API and leaves an empty store untouched. -/
theorem externalFailure_503_no_write_witness :
    Impl1.refresh false ⟨[], none⟩ (.fail .exchangeRates) (fun _ => 0)
        (fun _ => false) false "t" =
      (.externalUnavailable "Could not fetch data from Exchange Rates API",
        ⟨[], none⟩, false) :=
  ((externalFailure_503_no_write ⟨[], none⟩ (fun _ => 0) (fun _ => false) false "t").1
    ApiSource.exchangeRates).1

/-- C6: the single-flight guard.  A refresh request arriving while
`refreshInProgress` is set is answered 409 with no work started (store
untouched) and the flag left set for the in-flight cycle; a refresh that does
run clears the flag on every exit path (conflict excepted), whatever the fetch
outcome and storage behaviour. -/
theorem singleFlight_guard (st : DBState) (fetch : FetchOutcome) (draws : ℕ → ℚ)
    (uf : ℕ → Bool) (mf : Bool) (now : String) :
    (Impl1.refresh true st fetch draws uf mf now = (.conflict, st, true) ∧
     Impl2.refresh true st fetch draws uf mf now = (.conflict, st, true)) ∧
    ((Impl1.refresh false st fetch draws uf mf now).2.2 = false ∧
     (Impl2.refresh false st fetch draws uf mf now).2.2 = false) := by
  refine ⟨⟨rfl, rfl⟩, ?_, ?_⟩
  · cases fetch with
    | fail src => rfl
    | notArray => rfl
    | ok entries rf cf =>
        dsimp only [Impl1.refresh]
        cases h : runTransaction st
            (Impl1.deriveAll (normalizeRates rf cf) draws now entries) uf mf now <;>
          simp [h]
  · cases fetch with
    | fail src => rfl
    | notArray => rfl
    | ok entries rf cf =>
        dsimp only [Impl2.refresh]
        cases h : runTransaction st
            (Impl2.deriveAll (normalizeRates rf cf) draws now entries) uf mf now <;>
          simp [h]

/-- Witness for C6: with the guard set, a concrete refresh request is rejected
409 with store and flag untouched. -/
theorem singleFlight_guard_witness :
    Impl1.refresh true ⟨[], none⟩ (.ok [] none none) (fun _ => 0)
        (fun _ => false) false "t" = (.conflict, ⟨[], none⟩, true) :=
  ((singleFlight_guard ⟨[], none⟩ (.ok [] none none) (fun _ => 0)
    (fun _ => false) false "t").1).1

/-- C1: atomicity of the storage stage.  If any upsert statement (oracle
`uf` at some position of the derived list) or the metadata write (`mf`)
fails inside the transaction, the whole cycle rolls back: the visible store
(countries and metadata row alike) is exactly the pre-cycle state, and the
response is the 500 internal error, in both implementations. -/
theorem storageFailure_rolls_back (st : DBState) (entries : List CatalogEntry)
    (rf cf : Option RateTable) (draws : ℕ → ℚ) (uf : ℕ → Bool) (mf : Bool)
    (now : String)
    (h1 : (∃ i < (Impl1.deriveAll (normalizeRates rf cf) draws now entries).length,
            uf i = true) ∨ mf = true)
    (h2 : (∃ i < (Impl2.deriveAll (normalizeRates rf cf) draws now entries).length,
            uf i = true) ∨ mf = true) :
    Impl1.refresh false st (.ok entries rf cf) draws uf mf now =
      (.internalError, st, false) ∧
    Impl2.refresh false st (.ok entries rf cf) draws uf mf now =
      (.internalError, st, false) := by
  have hn1 : runTransaction st (Impl1.deriveAll (normalizeRates rf cf) draws now entries)
      uf mf now = none := (runTransaction_eq_none_iff _ _ _ _ _).mpr h1
  have hn2 : runTransaction st (Impl2.deriveAll (normalizeRates rf cf) draws now entries)
      uf mf now = none := (runTransaction_eq_none_iff _ _ _ _ _).mpr h2
  constructor
  · dsimp only [Impl1.refresh]
    simp [hn1]
  · dsimp only [Impl2.refresh]
    simp [hn2]

/-- Witness for C1: a one-entry catalog whose single upsert statement fails
rolls the cycle back in both implementations. -/
theorem storageFailure_rolls_back_witness :
    Impl1.refresh false ⟨[], none⟩
        (.ok [⟨some "X", none, none, some 5, none, none⟩] none none)
        (fun _ => 0) (fun _ => true) false "t" =
      (.internalError, ⟨[], none⟩, false) ∧
    Impl2.refresh false ⟨[], none⟩
        (.ok [⟨some "X", none, none, some 5, none, none⟩] none none)
        (fun _ => 0) (fun _ => true) false "t" =
      (.internalError, ⟨[], none⟩, false) :=
  storageFailure_rolls_back ⟨[], none⟩ [⟨some "X", none, none, some 5, none, none⟩]
    none none (fun _ => 0) (fun _ => true) false "t"
    (Or.inl ⟨0, by decide, rfl⟩) (Or.inl ⟨0, by decide, rfl⟩)

theorem deriveAll1_eq_nil (rates : RateTable) (draws : ℕ → ℚ) (now : String)
    (entries : List CatalogEntry)
    (hskip : ∀ c ∈ entries, jsOrNull c.name = none ∨ c.population = none) :
    Impl1.deriveAll rates draws now entries = [] := by
  unfold Impl1.deriveAll
  rw [List.filterMap_eq_nil_iff]
  intro p hp
  have hmem : entries[p.1]? = some p.2 := List.mem_enum_iff_getElem?.mp hp
  have : p.2 ∈ entries := List.getElem?_mem hmem
  exact (deriveRecord1_eq_none_iff rates (draws p.1) now p.2).mpr (hskip p.2 this)

theorem deriveAll2_eq_nil (rates : RateTable) (draws : ℕ → ℚ) (now : String)
    (entries : List CatalogEntry)
    (hskip : ∀ c ∈ entries, jsOrNull c.name = none ∨ c.population = none) :
    Impl2.deriveAll rates draws now entries = [] := by
  unfold Impl2.deriveAll
  rw [List.filterMap_eq_nil_iff]
  intro p hp
  have hmem : entries[p.1]? = some p.2 := List.mem_enum_iff_getElem?.mp hp
  have : p.2 ∈ entries := List.getElem?_mem hmem
  exact (deriveRecord2_eq_none_iff rates (draws p.1) now p.2).mpr (hskip p.2 this)

/-- C8 counterexample: a successful cycle in which every catalog entry is
skipped reports `total_countries` as the count of rows already in the store
(a whole-table `SELECT COUNT(*)` after commit), not 0: with one pre-existing
record it answers `total_countries = 1` in both implementations. -/
theorem zeroQualifying_total_cx :
    Impl1.refresh false
        ⟨[⟨"Ruritania", "ruritania", none, none, 3, none, none, some 0, none, "s"⟩], none⟩
        (.ok [⟨some "Q", none, none, none, none, none⟩] none none)
        (fun _ => 0) (fun _ => false) false "t" =
      (.success 1 "t",
        ⟨[⟨"Ruritania", "ruritania", none, none, 3, none, none, some 0, none, "s"⟩],
          some "t"⟩, false) ∧
    Impl2.refresh false
        ⟨[⟨"Ruritania", "ruritania", none, none, 3, none, none, some 0, none, "s"⟩], none⟩
        (.ok [⟨some "Q", none, none, none, none, none⟩] none none)
        (fun _ => 0) (fun _ => false) false "t" =
      (.success 1 "t",
        ⟨[⟨"Ruritania", "ruritania", none, none, 3, none, none, some 0, none, "s"⟩],
          some "t"⟩, false) ∧
    (1 : ℕ) ≠ 0 := by
  refine ⟨by decide, by decide, by decide⟩

/-- C8 amended: a successful refresh cycle in which every catalog entry is
skipped leaves the countries table unchanged, still updates the refresh
metadata timestamp, and reports `total_countries` equal to the number of
records already stored — which is 0 exactly when the store was empty before
the cycle. -/
theorem zeroQualifying_success_meta (st : DBState) (entries : List CatalogEntry)
    (rf cf : Option RateTable) (draws : ℕ → ℚ) (uf : ℕ → Bool) (now : String)
    (hskip : ∀ c ∈ entries, jsOrNull c.name = none ∨ c.population = none) :
    Impl1.refresh false st (.ok entries rf cf) draws uf false now =
      (.success st.countries.length now, ⟨st.countries, some now⟩, false) ∧
    Impl2.refresh false st (.ok entries rf cf) draws uf false now =
      (.success st.countries.length now, ⟨st.countries, some now⟩, false) := by
  have hd1 := deriveAll1_eq_nil (normalizeRates rf cf) draws now entries hskip
  have hd2 := deriveAll2_eq_nil (normalizeRates rf cf) draws now entries hskip
  constructor
  · dsimp only [Impl1.refresh]
    simp [hd1, runTransaction]
  · dsimp only [Impl2.refresh]
    simp [hd2, runTransaction]

/-- Witness for C8 (amended): an empty store with a catalog of one
population-less entry yields `total_countries = 0` and a written metadata
timestamp. -/
theorem zeroQualifying_success_meta_witness :
    Impl1.refresh false ⟨[], none⟩
        (.ok [⟨some "Q", none, none, none, none, none⟩] none none)
        (fun _ => 0) (fun _ => false) false "t" =
      (.success 0 "t", ⟨[], some "t"⟩, false) ∧
    Impl2.refresh false ⟨[], none⟩
        (.ok [⟨some "Q", none, none, none, none, none⟩] none none)
        (fun _ => 0) (fun _ => false) false "t" =
      (.success 0 "t", ⟨[], some "t"⟩, false) :=
  zeroQualifying_success_meta ⟨[], none⟩ [⟨some "Q", none, none, none, none, none⟩]
    none none (fun _ => 0) (fun _ => false) "t"
    (by intro c hc; simp at hc; subst hc; right; rfl)

theorem randomMultiplier_bounds (u : ℚ) (h0 : 0 ≤ u) (h1 : u < 1) :
    1000 ≤ randomMultiplier u ∧ randomMultiplier u ≤ 2000 := by
  unfold randomMultiplier
  constructor
  · have : (0 : ℤ) ≤ ⌊u * 1001⌋ := Int.floor_nonneg.mpr (by positivity)
    omega
  · have hlt : u * 1001 < 1001 := by nlinarith
    have : ⌊u * 1001⌋ < (1001 : ℤ) := Int.floor_lt.mpr (by exact_mod_cast hlt)
    omega

/-- C3 counterexample: an entry with population `0` (which qualifies: the skip
check is `population == null`) and a resolvable nonzero rate derives a NULL
`estimated_gdp` under the first implementation (its `computeEstimatedGDP`
tests truthiness, `!population`), whereas the claimed formula
`population * m / r` would give `0`. -/
theorem popZero_impl1_gdp_null_cx :
    (Impl1.deriveRecord [("USD", some 1)] 0 "t"
        ⟨some "Z", none, none, some 0, none, some [some ⟨some "USD"⟩]⟩).map
      DerivedRecord.estimated_gdp = some none ∧
    (some (none : Option ℚ) : Option (Option ℚ)) ≠ some (some ((0 : ℚ) * 1000 / 1)) := by
  exact ⟨by decide, by decide⟩

/-- C3 amended: for a qualifying entry with NONZERO population whose first
currency code (non-empty, different from the `"N/A"` sentinel) is mapped to a
non-null rate `r ≠ 0`, both implementations derive
`estimated_gdp = population * m / r` for the integer
`m = Math.floor(Math.random() * 1001) + 1000`, which lies in `[1000, 2000]`
for every sample in `[0, 1)`; with population `0` the first implementation
instead derives null (and the second derives `0`). -/
theorem resolvableRate_gdp_formula (rates : RateTable) (u : ℚ) (now : String)
    (c : CatalogEntry) (nm : String) (pop : ℚ) (code : String) (r : ℚ)
    (hu0 : 0 ≤ u) (hu1 : u < 1)
    (hn : jsOrNull c.name = some nm) (hp : c.population = some pop) (hpop : pop ≠ 0)
    (hcc : firstCurrencyCode c = some code) (hne : code ≠ "") (hna : code ≠ "N/A")
    (hfind : lookupRate rates code = some (some r)) (hr : r ≠ 0) :
    ∃ m : ℤ, 1000 ≤ m ∧ m ≤ 2000 ∧
      (Impl1.deriveRecord rates u now c).map DerivedRecord.estimated_gdp =
        some (some (pop * m / r)) ∧
      (Impl2.deriveRecord rates u now c).map DerivedRecord.estimated_gdp =
        some (some (pop * m / r)) := by
  obtain ⟨hm1, hm2⟩ := randomMultiplier_bounds u hu0 hu1
  refine ⟨randomMultiplier u, hm1, hm2, ?_, ?_⟩
  · rw [deriveRecord1_eq_some rates u now c nm pop hn hp]
    simp [Impl1.deriveFields, hcc, hna, hfind, Impl1.computeEstimatedGDP, hpop, hr]
  · rw [deriveRecord2_eq_some rates u now c nm pop hn hp]
    simp [Impl2.deriveFields, hcc, hne, hfind, Impl2.computeEstimatedGDP, hr]

/-- Witness for C3 (amended) at the Nigeria scenario of the spec: code `"ngn"`
normalizes to `"NGN"`, rate `410`, sample `u = 1/2` giving `m = 1500`. -/
theorem resolvableRate_gdp_formula_witness :
    ∃ m : ℤ, 1000 ≤ m ∧ m ≤ 2000 ∧
      (Impl1.deriveRecord [("NGN", some 410)] (1 / 2) "t"
          ⟨some "Nigeria", none, none, some 206000000, none,
            some [some ⟨some "ngn"⟩]⟩).map DerivedRecord.estimated_gdp =
        some (some ((206000000 : ℚ) * (m : ℚ) / 410)) ∧
      (Impl2.deriveRecord [("NGN", some 410)] (1 / 2) "t"
          ⟨some "Nigeria", none, none, some 206000000, none,
            some [some ⟨some "ngn"⟩]⟩).map DerivedRecord.estimated_gdp =
        some (some ((206000000 : ℚ) * (m : ℚ) / 410)) :=
  resolvableRate_gdp_formula [("NGN", some 410)] (1 / 2) "t"
    ⟨some "Nigeria", none, none, some 206000000, none, some [some ⟨some "ngn"⟩]⟩
    "Nigeria" 206000000 "NGN" 410
    (by norm_num) (by norm_num) (by decide) (by decide) (by norm_num)
    (by decide) (by decide) (by decide) (by decide) (by norm_num)

theorem deriveFields1_base (rates : RateTable) (u : ℚ) (now : String)
    (c : CatalogEntry) (nm : String) (pop : ℚ) :
    (Impl1.deriveFields rates u now c nm pop).name = nm ∧
    (Impl1.deriveFields rates u now c nm pop).normalized_name = normalizeName (some nm) ∧
    (Impl1.deriveFields rates u now c nm pop).capital = jsOrNull c.capital ∧
    (Impl1.deriveFields rates u now c nm pop).region = jsOrNull c.region ∧
    (Impl1.deriveFields rates u now c nm pop).population = pop ∧
    (Impl1.deriveFields rates u now c nm pop).flag_url = jsOrNull c.flag ∧
    (Impl1.deriveFields rates u now c nm pop).last_refreshed_at = now := by
  simp only [Impl1.deriveFields]
  split <;> simp

theorem deriveFields2_base (rates : RateTable) (u : ℚ) (now : String)
    (c : CatalogEntry) (nm : String) (pop : ℚ) :
    (Impl2.deriveFields rates u now c nm pop).name = nm ∧
    (Impl2.deriveFields rates u now c nm pop).normalized_name = normalizeName (some nm) ∧
    (Impl2.deriveFields rates u now c nm pop).capital = jsOrNull c.capital ∧
    (Impl2.deriveFields rates u now c nm pop).region = jsOrNull c.region ∧
    (Impl2.deriveFields rates u now c nm pop).population = pop ∧
    (Impl2.deriveFields rates u now c nm pop).flag_url = jsOrNull c.flag ∧
    (Impl2.deriveFields rates u now c nm pop).last_refreshed_at = now := by
  simp only [Impl2.deriveFields]
  split
  · simp
  · split <;> simp

/-- C9 counterexample: the two implementations are NOT extensionally
equivalent on the derivation stage.  For a qualifying entry with no currency
the first stores the sentinel string `"N/A"` as `currency_code` while the
second stores null, so even with the same random draw the derived records
differ. -/
theorem implementations_differ_cx :
    Impl1.deriveRecord [] 0 "t" ⟨some "X", none, none, some 5, none, none⟩ ≠
      Impl2.deriveRecord [] 0 "t" ⟨some "X", none, none, some 5, none, none⟩ ∧
    (Impl1.deriveRecord [] 0 "t" ⟨some "X", none, none, some 5, none, none⟩).map
      DerivedRecord.currency_code = some (some "N/A") ∧
    (Impl2.deriveRecord [] 0 "t" ⟨some "X", none, none, some 5, none, none⟩).map
      DerivedRecord.currency_code = some none := by
  exact ⟨by decide, by decide, by decide⟩

/-- C9 amended: given the same rate mapping and the same random draw, the two
implementations always make the same skip decision and agree on the `name`,
`normalized_name`, `capital`, `region`, `population`, `flag_url` and
`last_refreshed_at` fields of the derived record; they derive literally
identical records whenever the entry has nonzero population and a first
currency code that is non-empty after trim and uppercase, differs from the
`"N/A"` sentinel, and is mapped to a non-null nonzero rate; and likewise
identical records (with null `estimated_gdp` in both) whenever such a code is
mapped to a null or zero rate, whatever the population.  (They differ only in
the no-currency sentinel, on codes absent from the mapping, and on zero
population with a non-null nonzero rate.) -/
theorem implementations_agree (rates : RateTable) (u : ℚ) (now : String)
    (c : CatalogEntry) :
    (Impl1.deriveRecord rates u now c = none ↔ Impl2.deriveRecord rates u now c = none) ∧
    (∀ r1 r2, Impl1.deriveRecord rates u now c = some r1 →
       Impl2.deriveRecord rates u now c = some r2 →
       r1.name = r2.name ∧ r1.normalized_name = r2.normalized_name ∧
       r1.capital = r2.capital ∧ r1.region = r2.region ∧
       r1.population = r2.population ∧ r1.flag_url = r2.flag_url ∧
       r1.last_refreshed_at = r2.last_refreshed_at) ∧
    (∀ code r pop, c.population = some pop → pop ≠ 0 →
       firstCurrencyCode c = some code → code ≠ "" → code ≠ "N/A" →
       lookupRate rates code = some (some r) → r ≠ 0 →
       Impl1.deriveRecord rates u now c = Impl2.deriveRecord rates u now c) ∧
    (∀ code rv, firstCurrencyCode c = some code → code ≠ "" → code ≠ "N/A" →
       lookupRate rates code = some rv → (rv = none ∨ rv = some 0) →
       Impl1.deriveRecord rates u now c = Impl2.deriveRecord rates u now c) := by
  refine ⟨?_, ?_, ?_, ?_⟩
  · rw [deriveRecord1_eq_none_iff, deriveRecord2_eq_none_iff]
  · intro r1 r2 e1 e2
    cases hn : jsOrNull c.name with
    | none => rw [(deriveRecord1_eq_none_iff rates u now c).mpr (Or.inl hn)] at e1; cases e1
    | some nm =>
        cases hp : c.population with
        | none => rw [(deriveRecord1_eq_none_iff rates u now c).mpr (Or.inr hp)] at e1; cases e1
        | some pop =>
            rw [deriveRecord1_eq_some rates u now c nm pop hn hp] at e1
            rw [deriveRecord2_eq_some rates u now c nm pop hn hp] at e2
            cases e1; cases e2
            obtain ⟨a1, a2, a3, a4, a5, a6, a7⟩ := deriveFields1_base rates u now c nm pop
            obtain ⟨b1, b2, b3, b4, b5, b6, b7⟩ := deriveFields2_base rates u now c nm pop
            exact ⟨a1.trans b1.symm, a2.trans b2.symm, a3.trans b3.symm,
              a4.trans b4.symm, a5.trans b5.symm, a6.trans b6.symm, a7.trans b7.symm⟩
  · intro code r pop hp hpop hcc hne hna hfind hr
    cases hn : jsOrNull c.name with
    | none =>
        rw [(deriveRecord1_eq_none_iff rates u now c).mpr (Or.inl hn),
          (deriveRecord2_eq_none_iff rates u now c).mpr (Or.inl hn)]
    | some nm =>
        rw [deriveRecord1_eq_some rates u now c nm pop hn hp,
          deriveRecord2_eq_some rates u now c nm pop hn hp]
        simp [Impl1.deriveFields, Impl2.deriveFields, hcc, hna, hne, hfind,
          Impl1.computeEstimatedGDP, Impl2.computeEstimatedGDP, hpop, hr]
  · intro code rv hcc hne hna hfind hrv
    cases hn : jsOrNull c.name with
    | none =>
        rw [(deriveRecord1_eq_none_iff rates u now c).mpr (Or.inl hn),
          (deriveRecord2_eq_none_iff rates u now c).mpr (Or.inl hn)]
    | some nm =>
        cases hp : c.population with
        | none =>
            rw [(deriveRecord1_eq_none_iff rates u now c).mpr (Or.inr hp),
              (deriveRecord2_eq_none_iff rates u now c).mpr (Or.inr hp)]
        | some pop =>
            rw [deriveRecord1_eq_some rates u now c nm pop hn hp,
              deriveRecord2_eq_some rates u now c nm pop hn hp]
            rcases hrv with rfl | rfl <;>
              simp [Impl1.deriveFields, Impl2.deriveFields, hcc, hna, hne, hfind,
                Impl1.computeEstimatedGDP, Impl2.computeEstimatedGDP]

/-- Witness for C9 (amended): at the Nigeria entry both implementations derive
the same record, both for a nonzero rate and for a zero rate. -/
theorem implementations_agree_witness :
    Impl1.deriveRecord [("NGN", some 410)] 0 "t"
        ⟨some "Nigeria", none, none, some 206000000, none, some [some ⟨some "ngn"⟩]⟩ =
      Impl2.deriveRecord [("NGN", some 410)] 0 "t"
        ⟨some "Nigeria", none, none, some 206000000, none, some [some ⟨some "ngn"⟩]⟩ ∧
    Impl1.deriveRecord [("NGN", some 0)] 0 "t"
        ⟨some "Nigeria", none, none, some 206000000, none, some [some ⟨some "ngn"⟩]⟩ =
      Impl2.deriveRecord [("NGN", some 0)] 0 "t"
        ⟨some "Nigeria", none, none, some 206000000, none, some [some ⟨some "ngn"⟩]⟩ :=
  ⟨(implementations_agree [("NGN", some 410)] 0 "t"
      ⟨some "Nigeria", none, none, some 206000000, none, some [some ⟨some "ngn"⟩]⟩).2.2.1
    "NGN" 410 206000000 (by decide) (by norm_num) (by decide) (by decide)
    (by decide) (by decide) (by norm_num),
  (implementations_agree [("NGN", some 0)] 0 "t"
      ⟨some "Nigeria", none, none, some 206000000, none, some [some ⟨some "ngn"⟩]⟩).2.2.2
    "NGN" (some 0) (by decide) (by decide) (by decide) (by decide)
    (Or.inr rfl)⟩

theorem isWhitespace_toLower (c : Char) : (Char.toLower c).isWhitespace = c.isWhitespace := by
  unfold Char.toLower
  dsimp only
  split
  · rename_i h
    obtain ⟨h1, h2⟩ := h
    have hc : c = Char.ofNat c.toNat := (Char.ofNat_toNat c).symm
    set k := c.toNat with hk
    interval_cases k <;> rw [hc] <;> decide
  · rfl

theorem jsTrim_jsToLower (s : String) : jsTrim (jsToLower s) = jsToLower (jsTrim s) := by
  have hpf : (Char.isWhitespace ∘ Char.toLower) = Char.isWhitespace := by
    funext c
    exact isWhitespace_toLower c
  unfold jsTrim jsToLower
  apply congrArg String.mk
  show (((s.data.map Char.toLower).dropWhile Char.isWhitespace).reverse.dropWhile
      Char.isWhitespace).reverse =
    (((s.data.dropWhile Char.isWhitespace).reverse.dropWhile
      Char.isWhitespace).reverse).map Char.toLower
  rw [List.dropWhile_map, hpf, ← List.map_reverse, List.dropWhile_map, hpf,
    ← List.map_reverse]

theorem find_key_unique (l : List DerivedRecord) (r : DerivedRecord) (key : String)
    (hmem : r ∈ l) (hnd : (l.map DerivedRecord.normalized_name).Nodup)
    (hkey : r.normalized_name = key) :
    l.find? (fun x => decide (x.normalized_name = key)) = some r := by
  induction l with
  | nil => cases hmem
  | cons a t ih =>
      simp only [List.map_cons, List.nodup_cons] at hnd
      rcases List.mem_cons.mp hmem with h | h
      · subst h
        rw [List.find?_cons_of_pos]
        simp [hkey]
      · have hane : ¬ a.normalized_name = key := by
          intro he
          apply hnd.1
          rw [he, ← hkey]
          exact List.mem_map_of_mem _ h
        rw [show List.find? (fun x => decide (x.normalized_name = key)) (a :: t) =
              List.find? (fun x => decide (x.normalized_name = key)) t from
            List.find?_cons_of_neg t (by simp [hane])]
        exact ih h hnd.2

theorem filter_drop_mem_length (l : List DerivedRecord) (key : String) (r : DerivedRecord)
    (hmem : r ∈ l) (hkey : r.normalized_name = key) :
    (l.filter (fun x => decide (¬ x.normalized_name = key))).length < l.length := by
  induction l with
  | nil => cases hmem
  | cons a t ih =>
      rcases List.mem_cons.mp hmem with h | h
      · subst h
        rw [show List.filter (fun x => decide (¬ x.normalized_name = key)) (r :: t) =
              List.filter (fun x => decide (¬ x.normalized_name = key)) t from
            List.filter_cons_of_neg (by simp [hkey])]
        have := List.length_filter_le (fun x => decide (¬ x.normalized_name = key)) t
        simp only [List.length_cons]
        omega
      · by_cases ha : a.normalized_name = key
        · rw [show List.filter (fun x => decide (¬ x.normalized_name = key)) (a :: t) =
                List.filter (fun x => decide (¬ x.normalized_name = key)) t from
              List.filter_cons_of_neg (by simp [ha])]
          have := List.length_filter_le (fun x => decide (¬ x.normalized_name = key)) t
          simp only [List.length_cons]
          omega
        · rw [show List.filter (fun x => decide (¬ x.normalized_name = key)) (a :: t) =
                a :: List.filter (fun x => decide (¬ x.normalized_name = key)) t from
              List.filter_cons_of_pos (by simp [ha])]
          simp only [List.length_cons]
          have := ih h
          omega

/-- C7: `normalizedName` is `trim(lower(name))` — the code computes
`lower(trim(name))`, and the two commute because ASCII case mapping preserves
whitespace; every record written by either derivation carries
`normalized_name = normalizeName(name)`; and, in a store whose normalized
names are unique and satisfy that invariant, a GET or DELETE by any
case/whitespace variant `v` of a stored name (any `v` with the same
normalization) resolves to that same record: GET returns it, and DELETE
removes exactly the rows with its normalized key and reports success. -/
theorem normalizedName_lookup :
    (∀ n : Option String, normalizeName n = jsTrim (jsToLower (n.getD ""))) ∧
    (∀ rates u now c r, Impl1.deriveRecord rates u now c = some r →
        r.normalized_name = normalizeName (some r.name)) ∧
    (∀ rates u now c r, Impl2.deriveRecord rates u now c = some r →
        r.normalized_name = normalizeName (some r.name)) ∧
    (∀ (st : DBState) (v : String) (r : DerivedRecord), r ∈ st.countries →
        (st.countries.map DerivedRecord.normalized_name).Nodup →
        (∀ x ∈ st.countries, x.normalized_name = normalizeName (some x.name)) →
        normalizeName (some v) = normalizeName (some r.name) →
        getCountry st v = some r ∧
        (deleteCountry st v).1.countries =
          st.countries.filter (fun x => decide (¬ x.normalized_name = r.normalized_name)) ∧
        (deleteCountry st v).2 = true) := by
  refine ⟨?_, ?_, ?_, ?_⟩
  · intro n
    unfold normalizeName
    exact (jsTrim_jsToLower (n.getD "")).symm
  · intro rates u now c r he
    cases hn : jsOrNull c.name with
    | none =>
        rw [(deriveRecord1_eq_none_iff rates u now c).mpr (Or.inl hn)] at he
        cases he
    | some nm =>
        cases hp : c.population with
        | none =>
            rw [(deriveRecord1_eq_none_iff rates u now c).mpr (Or.inr hp)] at he
            cases he
        | some pop =>
            rw [deriveRecord1_eq_some rates u now c nm pop hn hp] at he
            cases he
            obtain ⟨a1, a2, -⟩ := deriveFields1_base rates u now c nm pop
            rw [a2, a1]
  · intro rates u now c r he
    cases hn : jsOrNull c.name with
    | none =>
        rw [(deriveRecord2_eq_none_iff rates u now c).mpr (Or.inl hn)] at he
        cases he
    | some nm =>
        cases hp : c.population with
        | none =>
            rw [(deriveRecord2_eq_none_iff rates u now c).mpr (Or.inr hp)] at he
            cases he
        | some pop =>
            rw [deriveRecord2_eq_some rates u now c nm pop hn hp] at he
            cases he
            obtain ⟨b1, b2, -⟩ := deriveFields2_base rates u now c nm pop
            rw [b2, b1]
  · intro st v r hmem hnd hinv hv
    have hkey : r.normalized_name = normalizeName (some v) := by
      rw [hinv r hmem, hv]
    refine ⟨?_, ?_, ?_⟩
    · exact find_key_unique st.countries r (normalizeName (some v)) hmem hnd hkey
    · unfold deleteCountry
      dsimp only
      rw [← hkey]
    · unfold deleteCountry
      dsimp only
      have hlt := filter_drop_mem_length st.countries (normalizeName (some v)) r hmem hkey
      simp only [decide_eq_true_eq]
      omega

/-- Witness for C7: in a one-record store holding `"Nigeria"` (normalized
`"nigeria"`), the variant `" NIGERIA "` resolves to that record for both GET
and DELETE. -/
theorem normalizedName_lookup_witness :
    getCountry
        ⟨[⟨"Nigeria", "nigeria", none, none, 5, none, none, some 0, none, "t"⟩], none⟩
        " NIGERIA " =
      some ⟨"Nigeria", "nigeria", none, none, 5, none, none, some 0, none, "t"⟩ ∧
    (deleteCountry
        ⟨[⟨"Nigeria", "nigeria", none, none, 5, none, none, some 0, none, "t"⟩], none⟩
        " NIGERIA ").2 = true := by
  have h := normalizedName_lookup.2.2.2
      ⟨[⟨"Nigeria", "nigeria", none, none, 5, none, none, some 0, none, "t"⟩], none⟩
      " NIGERIA " ⟨"Nigeria", "nigeria", none, none, 5, none, none, some 0, none, "t"⟩
      (by decide) (by decide) (by decide) (by decide)
  exact ⟨h.1, h.2.2⟩

end CountryService
